import Mathlib

/-!
Verification of the ref ssh-wrapper interface (src/ssh-wrapper/ref-interface/src/api.rs).

The development shallowly embeds the proxy-connection protocol client:

* the request codec inlined in `_ref_proxy_connect` (api.rs lines 210-227):
  JSON body produced by serde_json for `message::ProxyRequest` followed by the
  1-byte message tag and the 4-byte big-endian body length;
* the response-header decode (api.rs lines 240-244): a 5-byte read transmuted
  into the packed `message::MessageHeader` struct;
* the handshake pipeline of `_ref_proxy_connect` (api.rs lines 198-264),
  modelled as a function of the cached grant, the raw argument byte strings
  and an environment describing the outcome of each OS-level operation; the
  pipeline also returns the ordered list of network actions it performed and
  the final cache, so that ordering, frame and resource-lifetime properties
  can be stated;
* the store step of `ref_get_instance_details` (api.rs lines 122-123), both
  as a single sequential operation and as the two separate lock-protected
  phases the source actually performs.

Machine integers are represented as `Nat` with explicit reduction modulo
2 ^ 32 where the source casts to `u32`.  Byte strings are `List Nat` (each
entry a byte value), decoded text is a `List Nat` of Unicode scalar values.
-/

namespace RefInterface

/-! ## Byte and text utilities -/

/-- Concatenation of the images of a function over a list (the flat map used
by the UTF-8 and JSON-escape encoders). -/
def concatMap (f : Nat → List Nat) : List Nat → List Nat
  | [] => []
  | a :: l => f a ++ concatMap f l

/-- Unicode scalar values of an ASCII Lean string literal (used to write the
fixed JSON fragments readably). -/
def ascii (s : String) : List Nat := s.toList.map Char.toNat

/-- Decimal digits (as ASCII scalar values) of a natural number, fuel-driven
so that it reduces in the kernel.  This is how serde_json prints the `u64`
field `instance_id`. -/
def decDigitsAux : Nat → Nat → List Nat
  | 0, _ => []
  | fuel + 1, n =>
    if n < 10 then [48 + n]
    else decDigitsAux fuel (n / 10) ++ [48 + n % 10]

/-- Decimal representation (ASCII scalar values) of a natural number. -/
def decDigits (n : Nat) : List Nat := decDigitsAux (n + 1) n

/-- Big-endian byte representation of a 32-bit value, as written by
`msg.write_u32::<BigEndian>(..)` (api.rs line 226). -/
def be32 (n : Nat) : List Nat :=
  [n / 16777216 % 256, n / 65536 % 256, n / 256 % 256, n % 256]

/-- Interpretation of four bytes as a big-endian 32-bit value (the layout the
spec prescribes for the length field). -/
def fromBE32 (b : List Nat) : Nat :=
  b.getD 0 0 * 16777216 + b.getD 1 0 * 65536 + b.getD 2 0 * 256 + b.getD 3 0

/-- Interpretation of four bytes as a little-endian 32-bit value (the layout
an x86-64 / aarch64 machine uses when a `u32` field is read straight from
memory). -/
def fromLE32 (b : List Nat) : Nat :=
  b.getD 0 0 + b.getD 1 0 * 256 + b.getD 2 0 * 65536 + b.getD 3 0 * 16777216

/-- JSON string escaping of one Unicode scalar value, exactly as serde_json's
default formatter performs it: the quote and backslash get a two-character
escape, the five control characters with short escapes use them, every other
control character below 0x20 becomes a six-character \u00XX escape, and all
remaining scalar values pass through unchanged. -/
def escapeScalar (c : Nat) : List Nat :=
  if c = 34 then [92, 34]
  else if c = 92 then [92, 92]
  else if c = 8 then [92, 98]
  else if c = 9 then [92, 116]
  else if c = 10 then [92, 110]
  else if c = 12 then [92, 102]
  else if c = 13 then [92, 114]
  else if c < 32 then
    [92, 117, 48, 48, 48 + c / 16 + (if c / 16 ≥ 10 then 39 else 0),
     48 + c % 16 + (if c % 16 ≥ 10 then 39 else 0)]
  else [c]

/-- JSON escaping of a whole string of scalar values. -/
def jsonEscape (s : List Nat) : List Nat := concatMap escapeScalar s

/-- UTF-8 encoding of one Unicode scalar value. -/
def utf8EncodeScalar (c : Nat) : List Nat :=
  if c < 128 then [c]
  else if c < 2048 then [192 + c / 64, 128 + c % 64]
  else if c < 65536 then [224 + c / 4096, 128 + c / 64 % 64, 128 + c % 64]
  else [240 + c / 262144, 128 + c / 4096 % 64, 128 + c / 64 % 64, 128 + c % 64]

/-- UTF-8 encoding of a string of scalar values. -/
def utf8 (s : List Nat) : List Nat := concatMap utf8EncodeScalar s

/-- Does a byte have the 10xxxxxx continuation shape? -/
def contByte (b : Nat) : Bool := 128 ≤ b && b ≤ 191

/-- Strict UTF-8 decoding of a byte string into Unicode scalar values,
with the exact validity ranges Rust's std uses (no overlong forms, no
surrogates, nothing above 0x10FFFF).  This models the validation done by
CStr::into_string; the result is none exactly when that call returns an
error (which api.rs line 207/209 unwraps). -/
def utf8DecodeList : List Nat → Option (List Nat)
  | [] => some []
  | b :: l =>
    if b ≤ 127 then
      (utf8DecodeList l).map (fun cs => b :: cs)
    else if 194 ≤ b ∧ b ≤ 223 then
      match l with
      | c₁ :: l₁ =>
        if contByte c₁ then
          (utf8DecodeList l₁).map (fun cs => ((b - 192) * 64 + (c₁ - 128)) :: cs)
        else none
      | [] => none
    else if 224 ≤ b ∧ b ≤ 239 then
      match l with
      | c₁ :: c₂ :: l₂ =>
        let lo₁ : Nat := if b = 224 then 160 else 128
        let hi₁ : Nat := if b = 237 then 159 else 191
        if lo₁ ≤ c₁ ∧ c₁ ≤ hi₁ ∧ contByte c₂ then
          (utf8DecodeList l₂).map
            (fun cs => ((b - 224) * 4096 + (c₁ - 128) * 64 + (c₂ - 128)) :: cs)
        else none
      | _ => none
    else if 240 ≤ b ∧ b ≤ 244 then
      match l with
      | c₁ :: c₂ :: c₃ :: l₃ =>
        let lo₁ : Nat := if b = 240 then 144 else 128
        let hi₁ : Nat := if b = 244 then 143 else 191
        if lo₁ ≤ c₁ ∧ c₁ ≤ hi₁ ∧ contByte c₂ ∧ contByte c₃ then
          (utf8DecodeList l₃).map
            (fun cs =>
              ((b - 240) * 262144 + (c₁ - 128) * 4096 + (c₂ - 128) * 64 + (c₃ - 128)) :: cs)
        else none
      | _ => none
    else none

/-! ## The wire-format codec (api.rs mod message, lines 126-163, and the
inline framing in _ref_proxy_connect, lines 210-227) -/

namespace message

/-- Discriminant values of the MessageId enum (api.rs lines 130-135). -/
def MessageId.ProxyRequest : Nat := 0

/-- Success tag value (api.rs line 133). -/
def MessageId.Success : Nat := 50

/-- Failed tag value (api.rs line 134). -/
def MessageId.Failed : Nat := 51

/-- Size in bytes of the packed MessageHeader struct: one u8 tag plus one u32
length with no padding, as computed by mem::size_of at api.rs line 240. -/
def headerSize : Nat := 5

/-- The header common to all messages (api.rs lines 138-143), with the fields
already read out of memory. -/
structure MessageHeader where
  msg_type : Nat
  len : Nat
deriving DecidableEq

/-- Decoding of a received header buffer, modelling the pointer cast at
api.rs line 243: byte 0 lands in the u8 msg_type field, and bytes 1-4 are
read as the u32 len field in the machine's native byte order, which on the
x86-64 / aarch64 targets this service deploys on is little-endian.  No tag
value is rejected here; the raw byte is preserved. -/
def decodeHeader (b : List Nat) : MessageHeader where
  msg_type := b.getD 0 0
  len := b.getD 1 0 + b.getD 2 0 * 256 + b.getD 3 0 * 65536 + b.getD 4 0 * 16777216

/-- JSON body text (Unicode scalar values) produced by serde_json::to_string
for message::ProxyRequest (api.rs lines 145-162): fields serialized in struct
declaration order, msg_type fixed to the string PROXY_REQUEST, instance_id
printed as a bare u64 number, dst_ip and dst_port as escaped JSON strings. -/
def proxyRequestJson (instance_id : Nat) (dst_ip dst_port : List Nat) : List Nat :=
  ascii "\x7b\"msg_type\":\"PROXY_REQUEST\",\"instance_id\":"
    ++ decDigits instance_id
    ++ ascii ",\"dst_ip\":\""
    ++ jsonEscape dst_ip
    ++ ascii "\",\"dst_port\":\""
    ++ jsonEscape dst_port
    ++ ascii "\"\x7d"

/-- JSON string literal: opening quote, escaped contents, closing quote
(scalar value 34 is the double quote). -/
def jsonStringLit (s : List Nat) : List Nat := 34 :: jsonEscape s ++ [34]

/-- Comma-separated JSON object members, each a quoted key, a colon (scalar
58) and an already-serialized value. -/
def jsonMembers : List (List Nat × List Nat) → List Nat
  | [] => []
  | [(k, v)] => jsonStringLit k ++ 58 :: v
  | (k, v) :: m :: rest => jsonStringLit k ++ 58 :: v ++ 44 :: jsonMembers (m :: rest)

/-- A JSON object: an open brace (scalar 123), the members, a close brace
(scalar 125). -/
def jsonObject (ms : List (List Nat × List Nat)) : List Nat :=
  123 :: jsonMembers ms ++ [125]

/-- The request body as the spec describes it: a JSON object whose fields
are, in order, msg_type = "PROXY_REQUEST", instance_id as a number, dst_ip
and dst_port as strings. -/
def proxyRequestJsonSpec (instance_id : Nat) (dst_ip dst_port : List Nat) : List Nat :=
  jsonObject
    [(ascii "msg_type", jsonStringLit (ascii "PROXY_REQUEST")),
     (ascii "instance_id", decDigits instance_id),
     (ascii "dst_ip", jsonStringLit dst_ip),
     (ascii "dst_port", jsonStringLit dst_port)]

/-- UTF-8 bytes of the JSON body, exactly json_body.as_bytes() at
api.rs line 214. -/
def proxyRequestBody (instance_id : Nat) (dst_ip dst_port : List Nat) : List Nat :=
  utf8 (proxyRequestJson instance_id dst_ip dst_port)

/-- The complete encoded request written at api.rs lines 224-227: the 1-byte
ProxyRequest tag, the body byte length cast to u32 (reduction modulo 2^32)
written big-endian, then the body bytes. -/
def buildMsg (instance_id : Nat) (dst_ip dst_port : List Nat) : List Nat :=
  MessageId.ProxyRequest
    :: be32 ((proxyRequestBody instance_id dst_ip dst_port).length % 4294967296)
    ++ proxyRequestBody instance_id dst_ip dst_port

end message

/-! ## The session grant cache and the handshake client
(api.rs lines 49-60, 122-123 and 168-264) -/

/-- The authorization result cached per process (api.rs lines 49-56). -/
structure JsonResponse where
  instance_id : Nat
  is_admin : Nat
  is_grading_assistent : Nat
  tcp_forwarding_allowed : Nat
deriving DecidableEq

/-- Process-wide mutable state: the single INSTANCE_DETAILS slot
(api.rs lines 58-60). -/
structure AgentState where
  instanceDetails : Option JsonResponse
deriving DecidableEq

/-- Error type of the fallible half of the proxy-connect entry point
(api.rs lines 180-196).  IoError carries a description of the underlying
OS error; GenericError carries the message built at the raise site. -/
inductive RefError where
  | IoError : String → RefError
  | GenericError : String → RefError
deriving DecidableEq

/-- Result of running _ref_proxy_connect: a connected socket descriptor,
an error (which the C wrapper maps to -1), or a panic (the unwrap of
CStr::into_string at api.rs lines 207 and 209 on non-UTF-8 input; a panic
unwinds out of the extern fn and never produces a return value). -/
inductive Outcome where
  | ok : Nat → Outcome
  | err : RefError → Outcome
  | panicked : Outcome
deriving DecidableEq

/-- Observable network-level actions of one _ref_proxy_connect call, in
program order.  closeSocket is the drop of the TcpStream on an early
return; handoff is into_raw_fd at api.rs line 263, which relinquishes
ownership to the caller without closing. -/
inductive NetEvent where
  | connect : NetEvent
  | setWriteTimeout : Nat → NetEvent
  | setReadTimeout : Nat → NetEvent
  | writeBytes : List Nat → NetEvent
  | readBytes : Nat → NetEvent
  | closeSocket : Nat → NetEvent
  | handoff : Nat → NetEvent
deriving DecidableEq

/-- Environment describing what the operating system answers to each of the
I/O operations a single call performs, in order: the TCP connect (giving a
socket descriptor on success), the two timeout configurations, the full
write of the request, and the 5-byte header read. -/
structure NetEnv where
  connectRes : Except String Nat
  setWriteTimeoutRes : Except String Unit
  setReadTimeoutRes : Except String Unit
  writeAllRes : Except String Unit
  readHeaderRes : Except String (List Nat)

/-- Result of one modelled call: the outcome, the network actions performed,
and the value of the INSTANCE_DETAILS slot after the call. -/
structure RunResult where
  outcome : Outcome
  events : List NetEvent
  finalState : AgentState
deriving DecidableEq

/-- Timeout applied to both directions (api.rs line 15), in seconds. -/
def DEFAULT_TIMEOUT : Nat := 30

/-- Shallow embedding of _ref_proxy_connect (api.rs lines 198-264).

Step by step, following the source: read and clone the cached grant under
the lock (line 202), fail with a GenericError when it is empty (line 204);
convert both C strings, panicking on invalid UTF-8 (lines 206-209); build
the request (lines 212-227); connect (line 230); set the write and read
timeouts (lines 233-234); send the request (line 237); read the 5-byte
header (lines 240-241); dispatch on the tag byte (lines 244-260); on
success transfer the socket out via into_raw_fd (line 263).  Every early
return after the connect drops the stream, which closes the socket; the
events list records each action in order.  The cache is only ever read, so
the final state equals the initial one in every branch. -/
def runRefProxyConnect (st : AgentState) (addr port : List Nat) (env : NetEnv) : RunResult :=
  match st.instanceDetails with
  | none =>
    { outcome := .err (.GenericError "INSTANCE_DETAILS should not be empty!"),
      events := [], finalState := st }
  | some resp =>
    match utf8DecodeList addr with
    | none => { outcome := .panicked, events := [], finalState := st }
    | some addrText =>
      match utf8DecodeList port with
      | none => { outcome := .panicked, events := [], finalState := st }
      | some portText =>
        let msg := message.buildMsg resp.instance_id addrText portText
        match env.connectRes with
        | .error e =>
          { outcome := .err (.IoError e), events := [.connect], finalState := st }
        | .ok fd =>
          match env.setWriteTimeoutRes with
          | .error e =>
            { outcome := .err (.IoError e),
              events := [.connect, .setWriteTimeout DEFAULT_TIMEOUT, .closeSocket fd],
              finalState := st }
          | .ok _ =>
            match env.setReadTimeoutRes with
            | .error e =>
              { outcome := .err (.IoError e),
                events := [.connect, .setWriteTimeout DEFAULT_TIMEOUT,
                           .setReadTimeout DEFAULT_TIMEOUT, .closeSocket fd],
                finalState := st }
            | .ok _ =>
              match env.writeAllRes with
              | .error e =>
                { outcome := .err (.IoError e),
                  events := [.connect, .setWriteTimeout DEFAULT_TIMEOUT,
                             .setReadTimeout DEFAULT_TIMEOUT, .writeBytes msg,
                             .closeSocket fd],
                  finalState := st }
              | .ok _ =>
                match env.readHeaderRes with
                | .error e =>
                  { outcome := .err (.IoError e),
                    events := [.connect, .setWriteTimeout DEFAULT_TIMEOUT,
                               .setReadTimeout DEFAULT_TIMEOUT, .writeBytes msg,
                               .readBytes message.headerSize, .closeSocket fd],
                    finalState := st }
                | .ok buf =>
                  let header := message.decodeHeader buf
                  if header.msg_type = message.MessageId.Success then
                    { outcome := .ok fd,
                      events := [.connect, .setWriteTimeout DEFAULT_TIMEOUT,
                                 .setReadTimeout DEFAULT_TIMEOUT, .writeBytes msg,
                                 .readBytes message.headerSize, .handoff fd],
                      finalState := st }
                  else if header.msg_type = message.MessageId.Failed then
                    { outcome := .err (.GenericError "Failed to establish proxied connection!"),
                      events := [.connect, .setWriteTimeout DEFAULT_TIMEOUT,
                                 .setReadTimeout DEFAULT_TIMEOUT, .writeBytes msg,
                                 .readBytes message.headerSize, .closeSocket fd],
                      finalState := st }
                  else
                    { outcome := .err (.GenericError
                        ("Received unknown message with id " ++ toString header.msg_type)),
                      events := [.connect, .setWriteTimeout DEFAULT_TIMEOUT,
                                 .setReadTimeout DEFAULT_TIMEOUT, .writeBytes msg,
                                 .readBytes message.headerSize, .closeSocket fd],
                      finalState := st }

/-- Return value of the C-ABI wrapper: an integer, or no return at all
because a panic unwound out of the call. -/
inductive CRet where
  | val : Int → CRet
  | panicked : CRet
deriving DecidableEq

/-- Shallow embedding of the C-ABI wrapper ref_proxy_connect (api.rs lines
168-179): a successful inner call returns the descriptor, any RefError is
swallowed into the sentinel -1, and a panic never returns. -/
def ref_proxy_connect (st : AgentState) (addr port : List Nat) (env : NetEnv) :
    CRet × List NetEvent × AgentState :=
  match runRefProxyConnect st addr port env with
  | { outcome := .ok fd, events := ev, finalState := st' } => (.val (fd : Int), ev, st')
  | { outcome := .err _, events := ev, finalState := st' } => (.val (-1), ev, st')
  | { outcome := .panicked, events := ev, finalState := st' } => (.panicked, ev, st')

/-- Number of occurrences of one event in a trace. -/
def countEvent (e : NetEvent) : List NetEvent → Nat
  | [] => 0
  | x :: l => (if x = e then 1 else 0) + countEvent e l

/-! ## The store step of ref_get_instance_details (api.rs lines 122-123) -/

/-- The store step executed as one uninterrupted sequence: the
assert!(INSTANCE_DETAILS.lock().unwrap().is_none()) check followed by the
write.  none models the fatal assert failure (a panic), some the new state. -/
def storeInstanceDetails (st : AgentState) (resp : JsonResponse) : Option AgentState :=
  if st.instanceDetails.isNone then some { instanceDetails := some resp } else none

/-- Program counter of one in-flight store: the source takes the mutex twice,
once for the assert (line 122) and once, separately, for the write
(line 123), so a single store consists of two atomic lock-protected phases. -/
inductive StorePhase where
  | beforeCheck : StorePhase
  | beforeWrite : StorePhase
  | finished : StorePhase
deriving DecidableEq

/-- Joint state of two concurrent calls that both reached the store step:
the shared INSTANCE_DETAILS slot, each call's phase, and whether some
assert has already failed (aborting the process). -/
structure TwoStoreState where
  cache : Option JsonResponse
  pcFirst : StorePhase
  pcSecond : StorePhase
  aborted : Bool
deriving DecidableEq

/-- Initial state: empty cache, both calls about to run their assert. -/
def initTwoStore : TwoStoreState :=
  { cache := none, pcFirst := .beforeCheck, pcSecond := .beforeCheck, aborted := false }

/-- One atomic lock-protected step of a single store: the first lock
acquisition evaluates the assert (failing it aborts), the second performs
the write.  Returns the new phase, cache and abort flag. -/
def stepStore (resp : JsonResponse) (pc : StorePhase) (cache : Option JsonResponse) :
    StorePhase × Option JsonResponse × Bool :=
  match pc with
  | .beforeCheck =>
    if cache.isNone then (.beforeWrite, cache, false) else (.beforeCheck, cache, true)
  | .beforeWrite => (.finished, some resp, false)
  | .finished => (.finished, cache, false)

/-- Interleaved execution of two concurrent stores of r₁ and r₂: each
schedule entry names the call that acquires the lock next (true = the
first call).  After an abort nothing further runs. -/
def runTwoStores (r₁ r₂ : JsonResponse) : List Bool → TwoStoreState → TwoStoreState
  | [], s => s
  | who :: rest, s =>
    if s.aborted then s
    else
      let s' :=
        if who then
          let t := stepStore r₁ s.pcFirst s.cache
          { s with pcFirst := t.1, cache := t.2.1, aborted := t.2.2 }
        else
          let t := stepStore r₂ s.pcSecond s.cache
          { s with pcSecond := t.1, cache := t.2.1, aborted := t.2.2 }
      runTwoStores r₁ r₂ rest s'

/-! ## Helper lemmas -/

theorem concatMap_append (f : Nat → List Nat) (l₁ l₂ : List Nat) :
    concatMap f (l₁ ++ l₂) = concatMap f l₁ ++ concatMap f l₂ := by
  induction l₁ with
  | nil => rfl
  | cons a l ih => simp [concatMap, ih, List.append_assoc]

theorem concatMap_replicate_self (f : Nat → List Nat) (a : Nat) (h : f a = [a]) :
    ∀ n, concatMap f (List.replicate n a) = List.replicate n a := by
  intro n
  induction n with
  | zero => rfl
  | succ n ih => simp [List.replicate_succ, concatMap, h, ih]

theorem length_be32 (n : Nat) : (be32 n).length = 4 := rfl

theorem fromBE32_be32 (n : Nat) (h : n < 4294967296) : fromBE32 (be32 n) = n := by
  simp only [be32, fromBE32, List.getD_cons_zero, List.getD_cons_succ]
  omega

/-- Taking four bytes off the front of a be32 run recovers it. -/
theorem take4_be32_append (m : Nat) (l : List Nat) : (be32 m ++ l).take 4 = be32 m := rfl

/-- The serde_json output refines the spec's field-by-field description of
the body for every instance id, destination address and port. -/
theorem proxyRequestJson_eq_spec (instance_id : Nat) (dst_ip dst_port : List Nat) :
    message.proxyRequestJson instance_id dst_ip dst_port
      = message.proxyRequestJsonSpec instance_id dst_ip dst_port := by
  simp only [message.proxyRequestJson, message.proxyRequestJsonSpec, message.jsonObject,
    message.jsonMembers, message.jsonStringLit]
  rw [show jsonEscape (ascii "msg_type") = [109, 115, 103, 95, 116, 121, 112, 101] from by decide]
  rw [show jsonEscape (ascii "PROXY_REQUEST")
        = [80, 82, 79, 88, 89, 95, 82, 69, 81, 85, 69, 83, 84] from by decide]
  rw [show jsonEscape (ascii "instance_id")
        = [105, 110, 115, 116, 97, 110, 99, 101, 95, 105, 100] from by decide]
  rw [show jsonEscape (ascii "dst_ip") = [100, 115, 116, 95, 105, 112] from by decide]
  rw [show jsonEscape (ascii "dst_port") = [100, 115, 116, 95, 112, 111, 114, 116] from by decide]
  rw [show ascii "\x7b\"msg_type\":\"PROXY_REQUEST\",\"instance_id\":"
        = [123, 34, 109, 115, 103, 95, 116, 121, 112, 101, 34, 58, 34, 80, 82, 79, 88, 89, 95,
           82, 69, 81, 85, 69, 83, 84, 34, 44, 34, 105, 110, 115, 116, 97, 110, 99, 101, 95,
           105, 100, 34, 58] from by decide]
  rw [show ascii ",\"dst_ip\":\"" = [44, 34, 100, 115, 116, 95, 105, 112, 34, 58, 34] from by decide]
  rw [show ascii "\",\"dst_port\":\""
        = [34, 44, 34, 100, 115, 116, 95, 112, 111, 114, 116, 34, 58, 34] from by decide]
  rw [show ascii "\"\x7d" = [34, 125] from by decide]
  simp [List.append_assoc]

/-- The body splits into UTF-8 encodings of its seven text chunks. -/
theorem proxyRequestBody_decomp (instance_id : Nat) (dst_ip dst_port : List Nat) :
    message.proxyRequestBody instance_id dst_ip dst_port
      = utf8 (ascii "\x7b\"msg_type\":\"PROXY_REQUEST\",\"instance_id\":")
        ++ utf8 (decDigits instance_id)
        ++ utf8 (ascii ",\"dst_ip\":\"")
        ++ utf8 (jsonEscape dst_ip)
        ++ utf8 (ascii "\",\"dst_port\":\"")
        ++ utf8 (jsonEscape dst_port)
        ++ utf8 (ascii "\"\x7d") := by
  simp only [message.proxyRequestBody, message.proxyRequestJson, utf8]
  simp [concatMap_append, List.append_assoc]

/-- Byte length of the body in terms of its variable chunks. -/
theorem length_proxyRequestBody (instance_id : Nat) (dst_ip dst_port : List Nat) :
    (message.proxyRequestBody instance_id dst_ip dst_port).length
      = 69 + (utf8 (decDigits instance_id)).length
          + (utf8 (jsonEscape dst_ip)).length + (utf8 (jsonEscape dst_port)).length := by
  rw [proxyRequestBody_decomp]
  simp only [List.length_append]
  rw [show (utf8 (ascii "\x7b\"msg_type\":\"PROXY_REQUEST\",\"instance_id\":")).length = 42
        from by decide]
  rw [show (utf8 (ascii ",\"dst_ip\":\"")).length = 11 from by decide]
  rw [show (utf8 (ascii "\",\"dst_port\":\"")).length = 14 from by decide]
  rw [show (utf8 (ascii "\"\x7d")).length = 2 from by decide]
  omega

/-- The wrapper's return value is a function of the inner outcome alone. -/
theorem ref_proxy_connect_fst (st : AgentState) (addr port : List Nat) (env : NetEnv) :
    (ref_proxy_connect st addr port env).1
      = match (runRefProxyConnect st addr port env).outcome with
        | .ok fd => .val (fd : Int)
        | .err _ => .val (-1)
        | .panicked => .panicked := by
  unfold ref_proxy_connect
  rcases hr : runRefProxyConnect st addr port env with ⟨o, ev, s⟩
  cases o <;> rfl

/-! ## Claims -/

/-- Claim C1, amended: for every instance_id, dst_ip and dst_port, the
encoded proxy request is exactly a 1-byte tag 0 (ProxyRequest), a 4-byte
big-endian u32 equal to the byte length of the JSON body reduced modulo
2^32 — thus equal to the byte length itself whenever the body is shorter
than 2^32 bytes, as the hypothesis assumes — followed by the JSON body
whose fields are msg_type = "PROXY_REQUEST", instance_id (numeric), dst_ip
and dst_port (both as strings). -/
theorem C1_encode_layout (instance_id : Nat) (dst_ip dst_port : List Nat)
    (h : (message.proxyRequestBody instance_id dst_ip dst_port).length < 4294967296) :
    message.buildMsg instance_id dst_ip dst_port
      = message.MessageId.ProxyRequest
          :: be32 ((message.proxyRequestBody instance_id dst_ip dst_port).length)
          ++ message.proxyRequestBody instance_id dst_ip dst_port
    ∧ fromBE32 (((message.buildMsg instance_id dst_ip dst_port).drop 1).take 4)
        = (message.proxyRequestBody instance_id dst_ip dst_port).length
    ∧ message.proxyRequestBody instance_id dst_ip dst_port
        = utf8 (message.proxyRequestJsonSpec instance_id dst_ip dst_port) := by
  refine ⟨?_, ?_, ?_⟩
  · unfold message.buildMsg
    rw [Nat.mod_eq_of_lt h]
  · show fromBE32
        ((be32 ((message.proxyRequestBody instance_id dst_ip dst_port).length % 4294967296)
          ++ message.proxyRequestBody instance_id dst_ip dst_port).take 4)
        = (message.proxyRequestBody instance_id dst_ip dst_port).length
    rw [take4_be32_append, Nat.mod_eq_of_lt h]
    exact fromBE32_be32 _ h
  · unfold message.proxyRequestBody
    rw [proxyRequestJson_eq_spec]

/-- Witness for C1_encode_layout at instance_id 7, dst_ip "1.2.3.4",
dst_port "80". -/
theorem C1_encode_layout_witness :
    (message.proxyRequestBody 7 (ascii "1.2.3.4") (ascii "80")).length < 4294967296
    ∧ (message.buildMsg 7 (ascii "1.2.3.4") (ascii "80")
        = message.MessageId.ProxyRequest
            :: be32 ((message.proxyRequestBody 7 (ascii "1.2.3.4") (ascii "80")).length)
            ++ message.proxyRequestBody 7 (ascii "1.2.3.4") (ascii "80")
      ∧ fromBE32 (((message.buildMsg 7 (ascii "1.2.3.4") (ascii "80")).drop 1).take 4)
          = (message.proxyRequestBody 7 (ascii "1.2.3.4") (ascii "80")).length
      ∧ message.proxyRequestBody 7 (ascii "1.2.3.4") (ascii "80")
          = utf8 (message.proxyRequestJsonSpec 7 (ascii "1.2.3.4") (ascii "80"))) :=
  ⟨by decide, C1_encode_layout 7 (ascii "1.2.3.4") (ascii "80") (by decide)⟩

/-- Counterexample to claim C1 as stated: when dst_ip is 2^32 letters long
the JSON body has 4294967366 bytes, but the source casts the length to u32
(api.rs line 226), so the 4-byte big-endian length field decodes to 70, not
to the byte length of the body. -/
theorem C1_counterexample :
    ¬ (fromBE32 (((message.buildMsg 0 (List.replicate 4294967296 97) []).drop 1).take 4)
        = (message.proxyRequestBody 0 (List.replicate 4294967296 97) []).length) := by
  have hesc : jsonEscape (List.replicate 4294967296 97) = List.replicate 4294967296 97 :=
    concatMap_replicate_self _ 97 (by decide) _
  have hutf : utf8 (List.replicate 4294967296 97) = List.replicate 4294967296 97 :=
    concatMap_replicate_self _ 97 (by decide) _
  have hbody : (message.proxyRequestBody 0 (List.replicate 4294967296 97) []).length
      = 4294967296 + 70 := by
    rw [length_proxyRequestBody, hesc, hutf, List.length_replicate]
    rw [show (utf8 (decDigits 0)).length = 1 from by decide]
    rw [show (utf8 (jsonEscape ([] : List Nat))).length = 0 from by decide]
  have hfb : fromBE32 (((message.buildMsg 0 (List.replicate 4294967296 97) []).drop 1).take 4)
      = (message.proxyRequestBody 0 (List.replicate 4294967296 97) []).length % 4294967296 := by
    have ht : ((message.buildMsg 0 (List.replicate 4294967296 97) []).drop 1).take 4
        = be32 ((message.proxyRequestBody 0 (List.replicate 4294967296 97) []).length
            % 4294967296) :=
      take4_be32_append _ _
    rw [ht]
    exact fromBE32_be32 _ (Nat.mod_lt _ (by norm_num))
  intro h
  rw [hfb, hbody] at h
  omega

/-- Claim C3 is violated by the code: with a grant cached and a dst_ip that
is not valid UTF-8 (the single byte 0xFF), the call does not return -1 — it
panics in the unwrap of CStr::into_string at api.rs line 207, before any
network action. -/
theorem C3_panic_on_invalid_utf8 :
    (runRefProxyConnect { instanceDetails := some ⟨5, 0, 0, 0⟩ } [255] (ascii "80")
        ⟨.ok 7, .ok (), .ok (), .ok (), .ok [50, 0, 0, 0, 0]⟩).outcome = .panicked
    ∧ (ref_proxy_connect { instanceDetails := some ⟨5, 0, 0, 0⟩ } [255] (ascii "80")
        ⟨.ok 7, .ok (), .ok (), .ok (), .ok [50, 0, 0, 0, 0]⟩).1 = .panicked
    ∧ (runRefProxyConnect { instanceDetails := some ⟨5, 0, 0, 0⟩ } [255] (ascii "80")
        ⟨.ok 7, .ok (), .ok (), .ok (), .ok [50, 0, 0, 0, 0]⟩).events = [] := by
  refine ⟨rfl, rfl, rfl⟩

/-- Claim C4: whenever the grant cache is unset, proxy_connect returns the
sentinel -1 and performs no network action at all, for every destination
and every behavior of the operating system. -/
theorem C4_fail_closed_without_grant (addr port : List Nat) (env : NetEnv) :
    (ref_proxy_connect { instanceDetails := none } addr port env).1 = .val (-1)
    ∧ (ref_proxy_connect { instanceDetails := none } addr port env).2.1 = [] :=
  ⟨rfl, rfl⟩

/-- Claim C5 is violated by the code under the concurrency the spec itself
admits: the assert (api.rs line 122) and the write (line 123) take the
mutex separately, so two concurrent stores of distinct grants can both pass
the assert before either writes; the run below finishes with no abort and
the second grant silently overwriting the first (which was the cache value
one step earlier).  Sequentially the claim's intent does hold: a store into
an occupied slot trips the assert, as the last two conjuncts record. -/
theorem C5_store_race_overwrites :
    ((⟨1, 0, 0, 0⟩ : JsonResponse) ≠ ⟨2, 0, 0, 0⟩)
    ∧ (runTwoStores ⟨1, 0, 0, 0⟩ ⟨2, 0, 0, 0⟩ [true, false, true, false] initTwoStore).aborted
        = false
    ∧ (runTwoStores ⟨1, 0, 0, 0⟩ ⟨2, 0, 0, 0⟩ [true, false, true, false] initTwoStore).cache
        = some ⟨2, 0, 0, 0⟩
    ∧ (runTwoStores ⟨1, 0, 0, 0⟩ ⟨2, 0, 0, 0⟩ [true, false, true] initTwoStore).cache
        = some ⟨1, 0, 0, 0⟩
    ∧ (runTwoStores ⟨1, 0, 0, 0⟩ ⟨2, 0, 0, 0⟩ [true, true, false] initTwoStore).aborted = true
    ∧ storeInstanceDetails { instanceDetails := some ⟨1, 0, 0, 0⟩ } ⟨2, 0, 0, 0⟩ = none
    ∧ storeInstanceDetails { instanceDetails := none } ⟨1, 0, 0, 0⟩
        = some { instanceDetails := some ⟨1, 0, 0, 0⟩ } := by
  decide

/-- Claim C6, amended: decoding a response header consumes exactly 5 bytes
(the size of the packed header struct) and interprets byte 0 as the
message-type tag; bytes 1-4 land in the u32 length field in the machine's
native byte order — little-endian on the targets this code runs on, not
big-endian; an unrecognized tag value is preserved as-is at decode time,
distinct from Success and Failed, rather than rejected. -/
theorem C6_decode_header (b : List Nat) :
    message.headerSize = 5
    ∧ (message.decodeHeader b).msg_type = b.getD 0 0
    ∧ (message.decodeHeader b).len = fromLE32 (b.drop 1)
    ∧ (b.getD 0 0 ≠ message.MessageId.Success → b.getD 0 0 ≠ message.MessageId.Failed →
        (message.decodeHeader b).msg_type ≠ message.MessageId.Success
        ∧ (message.decodeHeader b).msg_type ≠ message.MessageId.Failed) := by
  refine ⟨rfl, rfl, ?_, fun h50 h51 => ⟨h50, h51⟩⟩
  cases b with
  | nil => rfl
  | cons a l => rfl

/-- Witness for C6_decode_header at the 5-byte header [99, 0, 0, 0, 1]. -/
theorem C6_decode_header_witness :
    message.headerSize = 5
    ∧ (message.decodeHeader [99, 0, 0, 0, 1]).msg_type = ([99, 0, 0, 0, 1] : List Nat).getD 0 0
    ∧ (message.decodeHeader [99, 0, 0, 0, 1]).len = fromLE32 (([99, 0, 0, 0, 1] : List Nat).drop 1)
    ∧ ((message.decodeHeader [99, 0, 0, 0, 1]).msg_type ≠ message.MessageId.Success
        ∧ (message.decodeHeader [99, 0, 0, 0, 1]).msg_type ≠ message.MessageId.Failed) :=
  have h := C6_decode_header [99, 0, 0, 0, 1]
  ⟨h.1, h.2.1, h.2.2.1, h.2.2.2 (by decide) (by decide)⟩

/-- Counterexample to claim C6 as stated: on the 5-byte response header
[50, 0, 0, 0, 1] the decoded length field is 16777216 (the little-endian
reading of bytes 1-4 produced by the pointer cast at api.rs line 243), not
the big-endian value 1 the claim prescribes. -/
theorem C6_counterexample :
    ¬ ((message.decodeHeader [50, 0, 0, 0, 1]).msg_type = 50
        ∧ (message.decodeHeader [50, 0, 0, 0, 1]).len
            = fromBE32 (([50, 0, 0, 0, 1] : List Nat).drop 1)) := by
  decide

/-- Claim C2: once a complete 5-byte response header has been read, the
client dispatches on the tag byte: 50 (Success) yields success with the
connected socket returned to the caller, 51 (Failed) yields the rejection
error, and any other tag yields a protocol error whose diagnostic carries
that tag value; in the two error cases the C wrapper returns -1. -/
theorem C2_header_dispatch (st : AgentState) (g : JsonResponse)
    (addr port addrText portText : List Nat) (env : NetEnv) (fd : Nat) (buf : List Nat)
    (hg : st.instanceDetails = some g)
    (ha : utf8DecodeList addr = some addrText)
    (hp : utf8DecodeList port = some portText)
    (hc : env.connectRes = .ok fd)
    (hw : env.setWriteTimeoutRes = .ok ())
    (hr : env.setReadTimeoutRes = .ok ())
    (hwr : env.writeAllRes = .ok ())
    (hrd : env.readHeaderRes = .ok buf)
    (hlen : buf.length = 5) :
    (buf.getD 0 0 = 50 →
      (runRefProxyConnect st addr port env).outcome = .ok fd
      ∧ (ref_proxy_connect st addr port env).1 = .val (fd : Int))
    ∧ (buf.getD 0 0 = 51 →
      (runRefProxyConnect st addr port env).outcome
        = .err (.GenericError "Failed to establish proxied connection!")
      ∧ (ref_proxy_connect st addr port env).1 = .val (-1))
    ∧ (buf.getD 0 0 ≠ 50 → buf.getD 0 0 ≠ 51 →
      (runRefProxyConnect st addr port env).outcome
        = .err (.GenericError ("Received unknown message with id " ++ toString (buf.getD 0 0)))
      ∧ (ref_proxy_connect st addr port env).1 = .val (-1)) := by
  rw [ref_proxy_connect_fst]
  simp only [runRefProxyConnect, hg, ha, hp, hc, hw, hr, hwr, hrd, message.decodeHeader,
    message.MessageId.Success, message.MessageId.Failed]
  refine ⟨fun h50 => ?_, fun h51 => ?_, fun hn1 hn2 => ?_⟩
  · rw [List.getD_eq_getElem?_getD] at h50
    simp [h50]
  · rw [List.getD_eq_getElem?_getD] at h51
    simp [h51]
  · rw [List.getD_eq_getElem?_getD] at hn1 hn2
    simp [hn1, hn2]

/-- Witness for C2_header_dispatch: a full successful exchange answered
with the unknown tag 99 makes the entry point report the tag value and
return -1. -/
theorem C2_header_dispatch_witness :
    (runRefProxyConnect { instanceDetails := some ⟨5, 0, 0, 0⟩ } (ascii "1.2.3.4") (ascii "80")
        ⟨.ok 7, .ok (), .ok (), .ok (), .ok [99, 0, 0, 0, 0]⟩).outcome
      = .err (.GenericError "Received unknown message with id 99")
    ∧ (ref_proxy_connect { instanceDetails := some ⟨5, 0, 0, 0⟩ } (ascii "1.2.3.4") (ascii "80")
        ⟨.ok 7, .ok (), .ok (), .ok (), .ok [99, 0, 0, 0, 0]⟩).1 = .val (-1) := by
  have h := (C2_header_dispatch { instanceDetails := some ⟨5, 0, 0, 0⟩ } ⟨5, 0, 0, 0⟩
    (ascii "1.2.3.4") (ascii "80") (ascii "1.2.3.4") (ascii "80")
    ⟨.ok 7, .ok (), .ok (), .ok (), .ok [99, 0, 0, 0, 0]⟩ 7 [99, 0, 0, 0, 0]
    rfl (by decide) (by decide) rfl rfl rfl rfl rfl (by decide)).2.2 (by decide) (by decide)
  exact ⟨h.1, h.2⟩

/-- Traces either start with the connect / set-write-timeout /
set-read-timeout preamble or contain no data transfer at all. -/
theorem events_take3 (st : AgentState) (addr port : List Nat) (env : NetEnv) :
    (runRefProxyConnect st addr port env).events.take 3
        = [NetEvent.connect, NetEvent.setWriteTimeout DEFAULT_TIMEOUT,
           NetEvent.setReadTimeout DEFAULT_TIMEOUT]
    ∨ ((∀ m, NetEvent.writeBytes m ∉ (runRefProxyConnect st addr port env).events)
        ∧ (∀ n, NetEvent.readBytes n ∉ (runRefProxyConnect st addr port env).events)) := by
  rcases hst : st.instanceDetails with _ | g
  · refine Or.inr ⟨fun m => ?_, fun n => ?_⟩ <;> simp [runRefProxyConnect, hst]
  · rcases hda : utf8DecodeList addr with _ | a
    · refine Or.inr ⟨fun m => ?_, fun n => ?_⟩ <;> simp [runRefProxyConnect, hst, hda]
    · rcases hdp : utf8DecodeList port with _ | p
      · refine Or.inr ⟨fun m => ?_, fun n => ?_⟩ <;> simp [runRefProxyConnect, hst, hda, hdp]
      · rcases hcr : env.connectRes with e | fd
        · refine Or.inr ⟨fun m => ?_, fun n => ?_⟩ <;>
            simp [runRefProxyConnect, hst, hda, hdp, hcr]
        · rcases hwt : env.setWriteTimeoutRes with e | u1
          · refine Or.inr ⟨fun m => ?_, fun n => ?_⟩ <;>
              simp [runRefProxyConnect, hst, hda, hdp, hcr, hwt]
          · rcases hrt : env.setReadTimeoutRes with e | u2
            · simp only [runRefProxyConnect, hst, hda, hdp, hcr, hwt, hrt]
              exact Or.inl rfl
            · rcases hwa : env.writeAllRes with e | u3
              · simp only [runRefProxyConnect, hst, hda, hdp, hcr, hwt, hrt, hwa]
                exact Or.inl rfl
              · rcases hrh : env.readHeaderRes with e | buf
                · simp only [runRefProxyConnect, hst, hda, hdp, hcr, hwt, hrt, hwa, hrh]
                  exact Or.inl rfl
                · by_cases h1 : (message.decodeHeader buf).msg_type = message.MessageId.Success
                  · simp only [runRefProxyConnect, hst, hda, hdp, hcr, hwt, hrt, hwa, hrh,
                      if_pos h1]
                    exact Or.inl rfl
                  · by_cases h2 : (message.decodeHeader buf).msg_type = message.MessageId.Failed
                    · simp only [runRefProxyConnect, hst, hda, hdp, hcr, hwt, hrt, hwa, hrh,
                        if_neg h1, if_pos h2]
                      exact Or.inl rfl
                    · simp only [runRefProxyConnect, hst, hda, hdp, hcr, hwt, hrt, hwa, hrh,
                        if_neg h1, if_neg h2]
                      exact Or.inl rfl

/-- Claim C7: whenever a handshake writes or reads any data, the trace
began by opening the connection and then setting the write timeout and the
read timeout, both to the fixed 30 seconds, before that data exchange. -/
theorem C7_timeouts_before_data (st : AgentState) (addr port : List Nat) (env : NetEnv)
    (h : (∃ m, NetEvent.writeBytes m ∈ (runRefProxyConnect st addr port env).events)
        ∨ (∃ n, NetEvent.readBytes n ∈ (runRefProxyConnect st addr port env).events)) :
    DEFAULT_TIMEOUT = 30
    ∧ (runRefProxyConnect st addr port env).events.take 3
        = [NetEvent.connect, NetEvent.setWriteTimeout 30, NetEvent.setReadTimeout 30] := by
  refine ⟨rfl, ?_⟩
  rcases events_take3 st addr port env with ht | ⟨hnw, hnr⟩
  · exact ht
  · rcases h with ⟨m, hm⟩ | ⟨n, hn⟩
    · exact absurd hm (hnw m)
    · exact absurd hn (hnr n)

/-- Witness for C7_timeouts_before_data on a concrete successful run. -/
theorem C7_timeouts_before_data_witness :
    (runRefProxyConnect { instanceDetails := some ⟨5, 0, 0, 0⟩ } (ascii "1.2.3.4") (ascii "80")
        ⟨.ok 7, .ok (), .ok (), .ok (), .ok [50, 0, 0, 0, 0]⟩).events.take 3
      = [NetEvent.connect, NetEvent.setWriteTimeout 30, NetEvent.setReadTimeout 30] :=
  (C7_timeouts_before_data { instanceDetails := some ⟨5, 0, 0, 0⟩ } (ascii "1.2.3.4")
    (ascii "80") ⟨.ok 7, .ok (), .ok (), .ok (), .ok [50, 0, 0, 0, 0]⟩
    (Or.inl ⟨message.buildMsg 5 (ascii "1.2.3.4") (ascii "80"), by decide⟩)).2

/-- Claim C8: once the TCP connection is open, either the handshake
succeeds — then the socket is handed off exactly once and never closed by
the client — or it fails — then the socket is closed exactly once, never
handed to the caller, and the wrapper returns -1. -/
theorem C8_socket_lifecycle (st : AgentState) (g : JsonResponse)
    (addr port addrText portText : List Nat) (env : NetEnv) (fd : Nat)
    (hg : st.instanceDetails = some g)
    (ha : utf8DecodeList addr = some addrText)
    (hp : utf8DecodeList port = some portText)
    (hc : env.connectRes = .ok fd) :
    ((runRefProxyConnect st addr port env).outcome = .ok fd
      ∨ ∃ e, (runRefProxyConnect st addr port env).outcome = .err e)
    ∧ ((runRefProxyConnect st addr port env).outcome = .ok fd →
        countEvent (.handoff fd) (runRefProxyConnect st addr port env).events = 1
        ∧ countEvent (.closeSocket fd) (runRefProxyConnect st addr port env).events = 0
        ∧ (ref_proxy_connect st addr port env).1 = .val (fd : Int))
    ∧ (∀ e, (runRefProxyConnect st addr port env).outcome = .err e →
        countEvent (.closeSocket fd) (runRefProxyConnect st addr port env).events = 1
        ∧ countEvent (.handoff fd) (runRefProxyConnect st addr port env).events = 0
        ∧ (ref_proxy_connect st addr port env).1 = .val (-1)) := by
  rw [ref_proxy_connect_fst]
  rcases hwt : env.setWriteTimeoutRes with e | u1
  · simp only [runRefProxyConnect, hg, ha, hp, hc, hwt]
    exact ⟨Or.inr ⟨_, rfl⟩, fun hco => by simp at hco,
      fun e' he' => ⟨by simp [countEvent], by simp [countEvent], by simp⟩⟩
  · rcases hrt : env.setReadTimeoutRes with e | u2
    · simp only [runRefProxyConnect, hg, ha, hp, hc, hwt, hrt]
      exact ⟨Or.inr ⟨_, rfl⟩, fun hco => by simp at hco,
        fun e' he' => ⟨by simp [countEvent], by simp [countEvent], by simp⟩⟩
    · rcases hwa : env.writeAllRes with e | u3
      · simp only [runRefProxyConnect, hg, ha, hp, hc, hwt, hrt, hwa]
        exact ⟨Or.inr ⟨_, rfl⟩, fun hco => by simp at hco,
          fun e' he' => ⟨by simp [countEvent], by simp [countEvent], by simp⟩⟩
      · rcases hrh : env.readHeaderRes with e | buf
        · simp only [runRefProxyConnect, hg, ha, hp, hc, hwt, hrt, hwa, hrh]
          exact ⟨Or.inr ⟨_, rfl⟩, fun hco => by simp at hco,
            fun e' he' => ⟨by simp [countEvent], by simp [countEvent], by simp⟩⟩
        · by_cases h1 : (message.decodeHeader buf).msg_type = message.MessageId.Success
          · simp only [runRefProxyConnect, hg, ha, hp, hc, hwt, hrt, hwa, hrh, if_pos h1]
            exact ⟨Or.inl (by simp),
              fun hco => ⟨by simp [countEvent], by simp [countEvent], by simp⟩,
              fun e' he' => by simp at he'⟩
          · by_cases h2 : (message.decodeHeader buf).msg_type = message.MessageId.Failed
            · simp only [runRefProxyConnect, hg, ha, hp, hc, hwt, hrt, hwa, hrh,
                if_neg h1, if_pos h2]
              exact ⟨Or.inr ⟨_, rfl⟩, fun hco => by simp at hco,
                fun e' he' => ⟨by simp [countEvent], by simp [countEvent], by simp⟩⟩
            · simp only [runRefProxyConnect, hg, ha, hp, hc, hwt, hrt, hwa, hrh,
                if_neg h1, if_neg h2]
              exact ⟨Or.inr ⟨_, rfl⟩, fun hco => by simp at hco,
                fun e' he' => ⟨by simp [countEvent], by simp [countEvent], by simp⟩⟩

/-- Witness for C8_socket_lifecycle: a handshake answered with the Failed
tag closes the socket exactly once, hands nothing to the caller and
returns -1. -/
theorem C8_socket_lifecycle_witness :
    countEvent (.closeSocket 7)
        (runRefProxyConnect { instanceDetails := some ⟨5, 0, 0, 0⟩ } (ascii "1.2.3.4")
          (ascii "80") ⟨.ok 7, .ok (), .ok (), .ok (), .ok [51, 0, 0, 0, 0]⟩).events = 1
    ∧ countEvent (.handoff 7)
        (runRefProxyConnect { instanceDetails := some ⟨5, 0, 0, 0⟩ } (ascii "1.2.3.4")
          (ascii "80") ⟨.ok 7, .ok (), .ok (), .ok (), .ok [51, 0, 0, 0, 0]⟩).events = 0
    ∧ (ref_proxy_connect { instanceDetails := some ⟨5, 0, 0, 0⟩ } (ascii "1.2.3.4")
        (ascii "80") ⟨.ok 7, .ok (), .ok (), .ok (), .ok [51, 0, 0, 0, 0]⟩).1 = .val (-1) :=
  (C8_socket_lifecycle { instanceDetails := some ⟨5, 0, 0, 0⟩ } ⟨5, 0, 0, 0⟩
    (ascii "1.2.3.4") (ascii "80") (ascii "1.2.3.4") (ascii "80")
    ⟨.ok 7, .ok (), .ok (), .ok (), .ok [51, 0, 0, 0, 0]⟩ 7
    rfl (by decide) (by decide) rfl).2.2
    (.GenericError "Failed to establish proxied connection!") (by decide)

/-- Claim C9: a proxy-connect call never mutates the session grant cache —
the INSTANCE_DETAILS slot after the call equals the slot before it, for
every initial state, destination and operating-system behavior. -/
theorem C9_cache_unchanged (st : AgentState) (addr port : List Nat) (env : NetEnv) :
    (runRefProxyConnect st addr port env).finalState = st
    ∧ (ref_proxy_connect st addr port env).2.2 = st := by
  have h1 : (runRefProxyConnect st addr port env).finalState = st := by
    rcases hst : st.instanceDetails with _ | g
    · simp [runRefProxyConnect, hst]
    · rcases hda : utf8DecodeList addr with _ | a
      · simp [runRefProxyConnect, hst, hda]
      · rcases hdp : utf8DecodeList port with _ | p
        · simp [runRefProxyConnect, hst, hda, hdp]
        · rcases hcr : env.connectRes with e | fd
          · simp [runRefProxyConnect, hst, hda, hdp, hcr]
          · rcases hwt : env.setWriteTimeoutRes with e | u1
            · simp [runRefProxyConnect, hst, hda, hdp, hcr, hwt]
            · rcases hrt : env.setReadTimeoutRes with e | u2
              · simp [runRefProxyConnect, hst, hda, hdp, hcr, hwt, hrt]
              · rcases hwa : env.writeAllRes with e | u3
                · simp [runRefProxyConnect, hst, hda, hdp, hcr, hwt, hrt, hwa]
                · rcases hrh : env.readHeaderRes with e | buf
                  · simp [runRefProxyConnect, hst, hda, hdp, hcr, hwt, hrt, hwa, hrh]
                  · by_cases h1 : (message.decodeHeader buf).msg_type
                        = message.MessageId.Success
                    · simp only [runRefProxyConnect, hst, hda, hdp, hcr, hwt, hrt, hwa, hrh,
                        if_pos h1]
                    · by_cases h2 : (message.decodeHeader buf).msg_type
                          = message.MessageId.Failed
                      · simp only [runRefProxyConnect, hst, hda, hdp, hcr, hwt, hrt, hwa, hrh,
                          if_neg h1, if_pos h2]
                      · simp only [runRefProxyConnect, hst, hda, hdp, hcr, hwt, hrt, hwa, hrh,
                          if_neg h1, if_neg h2]
  refine ⟨h1, ?_⟩
  unfold ref_proxy_connect
  rcases hr : runRefProxyConnect st addr port env with ⟨o, ev, s⟩
  have hs : s = st := by rw [← h1, hr]
  cases o <;> exact hs

/-- Claim C10: the outcome, the trace and the wire message of proxy_connect
depend only on the grant's instance_id — two cached grants sharing an
instance_id but differing in is_admin, is_grading_assistent or
tcp_forwarding_allowed produce byte-identical request messages and
identical behavior. -/
theorem C10_flags_noninterference (g₁ g₂ : JsonResponse)
    (h : g₁.instance_id = g₂.instance_id) (addr port : List Nat) (env : NetEnv) :
    (∀ ip pt, message.buildMsg g₁.instance_id ip pt = message.buildMsg g₂.instance_id ip pt)
    ∧ (runRefProxyConnect { instanceDetails := some g₁ } addr port env).outcome
        = (runRefProxyConnect { instanceDetails := some g₂ } addr port env).outcome
    ∧ (runRefProxyConnect { instanceDetails := some g₁ } addr port env).events
        = (runRefProxyConnect { instanceDetails := some g₂ } addr port env).events
    ∧ (ref_proxy_connect { instanceDetails := some g₁ } addr port env).1
        = (ref_proxy_connect { instanceDetails := some g₂ } addr port env).1 := by
  have hoe : (runRefProxyConnect { instanceDetails := some g₁ } addr port env).outcome
        = (runRefProxyConnect { instanceDetails := some g₂ } addr port env).outcome
      ∧ (runRefProxyConnect { instanceDetails := some g₁ } addr port env).events
        = (runRefProxyConnect { instanceDetails := some g₂ } addr port env).events := by
    rcases hda : utf8DecodeList addr with _ | a
    · constructor <;> simp [runRefProxyConnect, hda]
    · rcases hdp : utf8DecodeList port with _ | p
      · constructor <;> simp [runRefProxyConnect, hda, hdp]
      · rcases hcr : env.connectRes with e | fd
        · constructor <;> simp [runRefProxyConnect, hda, hdp, hcr]
        · rcases hwt : env.setWriteTimeoutRes with e | u1
          · constructor <;> simp [runRefProxyConnect, hda, hdp, hcr, hwt, h]
          · rcases hrt : env.setReadTimeoutRes with e | u2
            · constructor <;> simp [runRefProxyConnect, hda, hdp, hcr, hwt, hrt, h]
            · rcases hwa : env.writeAllRes with e | u3
              · constructor <;> simp [runRefProxyConnect, hda, hdp, hcr, hwt, hrt, hwa, h]
              · rcases hrh : env.readHeaderRes with e | buf
                · constructor <;>
                    simp [runRefProxyConnect, hda, hdp, hcr, hwt, hrt, hwa, hrh, h]
                · by_cases h1 : (message.decodeHeader buf).msg_type = message.MessageId.Success
                  · constructor <;>
                      simp [runRefProxyConnect, hda, hdp, hcr, hwt, hrt, hwa, hrh,
                        if_pos h1, h]
                  · by_cases h2 : (message.decodeHeader buf).msg_type
                        = message.MessageId.Failed
                    · constructor <;>
                        simp [runRefProxyConnect, hda, hdp, hcr, hwt, hrt, hwa, hrh,
                          if_neg h1, if_pos h2, h]
                    · constructor <;>
                        simp [runRefProxyConnect, hda, hdp, hcr, hwt, hrt, hwa, hrh,
                          if_neg h1, if_neg h2, h]
  refine ⟨fun ip pt => by rw [h], hoe.1, hoe.2, ?_⟩
  rw [ref_proxy_connect_fst, ref_proxy_connect_fst, hoe.1]

/-- Witness for C10_flags_noninterference: two grants for instance 5, one
with every permission flag set and one with tcp_forwarding_allowed (and
the other flags) cleared, behave identically. -/
theorem C10_flags_noninterference_witness :
    (runRefProxyConnect { instanceDetails := some ⟨5, 1, 1, 1⟩ } (ascii "1.2.3.4") (ascii "80")
        ⟨.ok 7, .ok (), .ok (), .ok (), .ok [50, 0, 0, 0, 0]⟩).outcome
      = (runRefProxyConnect { instanceDetails := some ⟨5, 0, 0, 0⟩ } (ascii "1.2.3.4")
          (ascii "80") ⟨.ok 7, .ok (), .ok (), .ok (), .ok [50, 0, 0, 0, 0]⟩).outcome
    ∧ (ref_proxy_connect { instanceDetails := some ⟨5, 1, 1, 1⟩ } (ascii "1.2.3.4") (ascii "80")
        ⟨.ok 7, .ok (), .ok (), .ok (), .ok [50, 0, 0, 0, 0]⟩).1
      = (ref_proxy_connect { instanceDetails := some ⟨5, 0, 0, 0⟩ } (ascii "1.2.3.4")
          (ascii "80") ⟨.ok 7, .ok (), .ok (), .ok (), .ok [50, 0, 0, 0, 0]⟩).1 :=
  have h := C10_flags_noninterference ⟨5, 1, 1, 1⟩ ⟨5, 0, 0, 0⟩ rfl
    (ascii "1.2.3.4") (ascii "80") ⟨.ok 7, .ok (), .ok (), .ok (), .ok [50, 0, 0, 0, 0]⟩
  ⟨h.2.1, h.2.2.2⟩

end RefInterface
